import Mathlib

/-!
# Verification of the GrowthMatch content generator against its specification

A shallow embedding of `src/app.py` and `src/config/setting.py`.

* Python `dict[str, str]` values are modelled as insertion-ordered association
  lists (`Dict` below) with Python assignment semantics (`dictInsert`: update
  in place when the key exists, append otherwise) and `dict.get` lookup
  (`dictGet` / `dictGetD`).
* Python `str.replace(c, "")` for a one-character pattern deletes every
  occurrence of that character; it is modelled as a character filter
  (`pyStripChar`).
* The pydantic schemas `SocialMediaPost` and `BlogPost` are modelled as
  structures together with the machine-checked constraints their `Field`
  declarations impose (`validSocialMediaPost`, `validBlogPost`).
* The remote model plus the parse/validate/retry loop performed by the
  third-party `instructor` client (invoked at `src/app.py` line 43) is not
  part of this repository's sources; it is modelled from the spec, §4.1
  (`attemptCompletion`, `create_completion`), with the remote model abstracted
  as a function from the message list and the attempt index to a candidate.
* The Flask handlers `generate_post` / `generate_blog` are modelled at the
  boundary (`generate_post_route`, `generate_blog_route`), with the pipeline
  abstracted as a function and a raised exception represented by its message
  string.
-/

/-! ## Dictionaries (Python `dict[str, str]`) -/

/-- A Python `dict` with string keys and values, as an insertion-ordered
association list. -/
abbrev Dict := List (String × String)

/-- Python `d[k] = v`: overwrite in place when `k` is present, append
otherwise. -/
def dictInsert (d : Dict) (k v : String) : Dict :=
  if d.any (fun kv => kv.1 == k) then
    d.map (fun kv => if kv.1 == k then (k, v) else kv)
  else
    d ++ [(k, v)]

/-- Python `d.get(k)`: the value stored at `k`, if any. -/
def dictGet : Dict → String → Option String
  | [], _ => none
  | kv :: rest, k => if kv.1 == k then some kv.2 else dictGet rest k

/-- Python `d.get(k, dflt)`. -/
def dictGetD (d : Dict) (k dflt : String) : String :=
  (dictGet d k).getD dflt

/-- Python `k in d`. -/
def hasKey (d : Dict) (k : String) : Bool :=
  d.any (fun kv => kv.1 == k)

/-! ## Sanitization (src/app.py lines 152-156 and 243-247) -/

/-- Python `s.replace(c, "")` for a single-character pattern: delete every
occurrence of the character `c`. -/
def pyStripChar (c : Char) (s : String) : String :=
  String.mk (s.data.filter (fun a => a != c))

/-- src/app.py line 155: `key.replace("'", "").replace('"', "")`. -/
def stripKeyPost (k : String) : String :=
  pyStripChar ('\x22') (pyStripChar ('\x27') k)

/-- src/app.py line 246: `key.replace("'", "").replace('"', "").replace("`", "")`. -/
def stripKeyBlog (k : String) : String :=
  pyStripChar ('\x60') (pyStripChar ('\x22') (pyStripChar ('\x27') k))

/-- The sanitization loop shared by both generators: re-insert every entry
under its stripped key (`sanitized_data[new_key] = value`). -/
def sanitizeWith (strip : String → String) (request_data : Dict) : Dict :=
  request_data.foldl (fun acc kv => dictInsert acc (strip kv.1) kv.2) []

/-- src/app.py lines 153-156 (`PostGenerator`): the values are left untouched;
only the keys are stripped. -/
def sanitizePost (request_data : Dict) : Dict :=
  sanitizeWith stripKeyPost request_data

/-- src/app.py lines 244-247 (`BlogPostGenerator`). -/
def sanitizeBlog (request_data : Dict) : Dict :=
  sanitizeWith stripKeyBlog request_data

/-- The value the sanitized mapping ends up holding for a sanitized key `k`:
the value of the last entry (in iteration order) whose stripped key is `k`. -/
def lastValueFor (strip : String → String) (data : Dict) (k : String) : Option String :=
  data.foldl (fun o kv => if strip kv.1 == k then some kv.2 else o) none

/-! ## Content schemas (src/app.py lines 48-149) -/

/-- The `SocialMediaPost` pydantic model (src/app.py lines 48-91). -/
structure SocialMediaPost where
  title : String
  body : String
  hashtags : List String
deriving DecidableEq

/-- The machine-checked constraints carried by the `Field` declarations of
`SocialMediaPost`: `title` has `max_length=70`, `body` has `min_length=500`
and `max_length=2100`, `hashtags` has `min_items=3` and `max_items=3`.
The `description` strings attach no validation. -/
def validSocialMediaPost (p : SocialMediaPost) : Bool :=
  decide (p.title.length ≤ 70) &&
  decide (500 ≤ p.body.length) &&
  decide (p.body.length ≤ 2100) &&
  decide (3 ≤ p.hashtags.length) &&
  decide (p.hashtags.length ≤ 3)

/-- The `BlogPost` pydantic model (src/app.py lines 93-149). -/
structure BlogPost where
  title : String
  contentBody : String
  hashtags : List String
deriving DecidableEq

/-- The machine-checked constraints of `BlogPost`: `title` has
`max_length=120`, `contentBody` has `min_length=2800` and `max_length=4000`,
`hashtags` has `min_items=3` and `max_items=5`. -/
def validBlogPost (p : BlogPost) : Bool :=
  decide (p.title.length ≤ 120) &&
  decide (2800 ≤ p.contentBody.length) &&
  decide (p.contentBody.length ≤ 4000) &&
  decide (3 ≤ p.hashtags.length) &&
  decide (p.hashtags.length ≤ 5)

/-! ## Structural markers, as the spec describes them

The spec (§3) requires hook/paragraphs/conclusion structure for the social
body and frontmatter metadata plus a minimum H2 section count for the blog
content body.  These two predicates are the spec's wording turned into
checks, to be compared with what the code actually validates. -/

/-- Number of (possibly overlapping) occurrences of `pat` in a character
list. -/
def countMarker (pat : List Char) : List Char → Nat
  | [] => 0
  | c :: rest => (if pat.isPrefixOf (c :: rest) then 1 else 0) + countMarker pat rest

/-- Spec-side predicate (from the spec's words, not from src): the social
body follows a hook/paragraphs/conclusion structure, i.e. it consists of at
least three blank-line-separated blocks. -/
def specSocialStructureCheck (body : String) : Bool :=
  decide (2 ≤ countMarker (("\n\n").data) body.data)

/-- Spec-side predicate (from the spec's words, not from src): the blog
content body carries the four frontmatter metadata fields and at least three
H2 sections. -/
def specBlogStructureCheck (b : String) : Bool :=
  decide (1 ≤ countMarker (("Focus Keyword:").data) b.data) &&
  decide (1 ≤ countMarker (("Meta Title:").data) b.data) &&
  decide (1 ≤ countMarker (("Meta Description:").data) b.data) &&
  decide (1 ≤ countMarker (("URL:").data) b.data) &&
  decide (3 ≤ countMarker (("\n## ").data) b.data)

/-! ## Completion Client -/

/-- A chat message (`{"role": ..., "content": ...}` in src/app.py). -/
structure Message where
  role : String
  content : String
deriving DecidableEq

/-- The spec's error taxonomy for the Completion Client (§7):
`generationFailure` is retry exhaustion, `providerFailure` a broken channel. -/
inductive CompletionError where
  | generationFailure
  | providerFailure
deriving DecidableEq

/-- Modelled from the spec: the parse/validate/retry loop of the Completion
Client is performed inside the third-party `instructor` client at
src/app.py line 43 (`self.client.chat.completions.create`), so it is not in
src/.  Per spec §4.1, the client re-issues the request until the candidate
validates against the schema, up to `max_retries` attempts in total, and
signals a `GenerationFailure` when retries are exhausted. -/
def attemptCompletion {α : Type} (validate : α → Bool) (provide : Nat → α) :
    Nat → Nat → Except CompletionError α
  | _, 0 => .error .generationFailure
  | attempt, fuel + 1 =>
    let candidate := provide attempt
    if validate candidate then .ok candidate
    else attemptCompletion validate provide (attempt + 1) fuel

/-- Modelled from the spec: `LLMFactory.create_completion` (src/app.py
lines 32-43) hands the messages and the response model to the `instructor`
client, whose retry loop is modelled by `attemptCompletion`.  The remote
model is abstracted as `provide`, a function from the message list and the
attempt index to a candidate instance. -/
def create_completion {α : Type} (validate : α → Bool)
    (provide : List Message → Nat → α) (messages : List Message)
    (max_retries : Nat) : Except CompletionError α :=
  attemptCompletion validate (provide messages) 0 max_retries

/-- A stub completion provider that produces a schema-invalid candidate on
its first `n` attempts and a schema-valid one thereafter (spec §8). -/
def stubProvider {α : Type} (bad good : α) (n : Nat) : List Message → Nat → α :=
  fun _ attempt => if attempt < n then bad else good

/-! ## Provider settings and generation parameters
(src/config/setting.py and src/app.py lines 32-43) -/

/-- `OpenAISettings` (src/config/setting.py lines 10-18): temperature 0.0,
`max_tokens` None and `max_retries` 5 inherited from `LLMProviderSettings`,
plus the api key and `default_model` "gpt-4o".  The temperature is a float
in the source; it is never computed with, only carried, so it is modelled
as a rational. -/
structure OpenAISettings where
  temperature : Rat
  max_tokens : Option Nat
  max_retries : Nat
  api_key : String
  default_model : String
deriving DecidableEq

/-- The field defaults of `OpenAISettings`. -/
def default_openai_settings (api_key : String) : OpenAISettings :=
  ⟨0, none, 5, api_key, "gpt-4o"⟩

/-- The keyword arguments `create_completion` accepts (`kwargs.get(...)`
returns the caller's value when the key is present). -/
structure CompletionKwargs where
  model : Option String
  temperature : Option Rat
  max_retries : Option Nat
  max_tokens : Option (Option Nat)

/-- The `completion_params` dictionary assembled by
`LLMFactory.create_completion` (src/app.py lines 35-42). -/
structure CompletionParams (α β : Type) where
  model : String
  temperature : Rat
  max_retries : Nat
  max_tokens : Option Nat
  response_model : α
  messages : β

/-- src/app.py lines 35-42: each generation parameter is
`kwargs.get(name, settings.name)`; `response_model` and `messages` are put
into the params dictionary unchanged. -/
def completion_params {α β : Type} (settings : OpenAISettings)
    (kwargs : CompletionKwargs) (response_model : α) (messages : β) :
    CompletionParams α β :=
  ⟨kwargs.model.getD settings.default_model,
   kwargs.temperature.getD settings.temperature,
   kwargs.max_retries.getD settings.max_retries,
   kwargs.max_tokens.getD settings.max_tokens,
   response_model,
   messages⟩

/-! ## Prompt construction (src/app.py lines 158-230 and 249-320)

The Python f-strings interpolate `sanitized_data.get(key, "")` into literal
template text; they are embedded as concatenations of the literal chunks
with `dictGetD d key ""` at each interpolation point. -/

/-- The `system_content` f-string of `PostGenerator`
(src/app.py lines 158-214), applied to the sanitized data. -/
def postSystemContent (d : Dict) : String :=
  ("\n        You are an expert senior copywriter and social media marketer who helps business leaders and subject matter experts convert their spoken words into polished, \n        clear and articulate text content. Your core function is to turn AI transcripts from recorded calls into social media marketing posts that establish the writer \n        as a thought leader in their space, educate customers and prospects, and/or market the company the leader or subject matter expert works for.\n     \n        <Context>\n            Please review the various pieces of context below on the creator, their company, their brand, their social post style guide, and more.\n\n            <company_name>\n            Company Name: ")
  ++ dictGetD d ("6.Name") ("")
  ++ ("\n            </company_name>\n\n            <company_description>\n            Company Description: ")
  ++ dictGetD d ("6.Company Description") ("")
  ++ ("\n            </company_description>\n\n            <creator_name>\n            Creator Name: ")
  ++ dictGetD d ("11.Full Name") ("")
  ++ ("\n            </creator_name>\n\n            Please read the bio below of the creator who will be seen as the author of this social post. This creator is also the person who recorded what is in the AI transcript.\n\n            <creator_bio>\n            Creator Bio: ")
  ++ dictGetD d ("11.Bio") ("")
  ++ ("\n            </creator_bio>\n\n            <optional_context>\n            The items below may or may not have values. If they\x27re empty just ignore them when creating the social post text.\n\n            Brand Values: ")
  ++ dictGetD d ("7.Brand Values") ("")
  ++ ("\n            Brand Personalities: ")
  ++ dictGetD d ("7.Brand Personalities") ("")
  ++ ("\n            Tone of Voice Principles: ")
  ++ dictGetD d ("7.Tone of Voice Principles") ("")
  ++ ("\n            Language Dos: ")
  ++ dictGetD d ("7.Language Dos") ("")
  ++ ("\n            Language Donts: ")
  ++ dictGetD d ("7.Language Donts") ("")
  ++ ("\n            Audience Adapatations: ")
  ++ dictGetD d ("7.Audience Adaptations") ("")
  ++ ("\n            On Brand Examples: ")
  ++ dictGetD d ("7.On Brand Examples") ("")
  ++ ("\n            Off Brand Examples: ")
  ++ dictGetD d ("7.Off Brand (Bad) Examples") ("")
  ++ ("\n            Narrative Style: ")
  ++ dictGetD d ("7.Narrative and Storytelling Style") ("")
  ++ ("\n            Key Messages: ")
  ++ dictGetD d ("7.Key Messages") ("")
  ++ ("\n            Social Post Style Guide: ")
  ++ dictGetD d ("7.Social Post Writing Style Guide") ("")
  ++ ("\n            Audience Information: ")
  ++ dictGetD d ("14.array") ("")
  ++ ("\n            Solutions Information: ")
  ++ dictGetD d ("13.array") ("")
  ++ ("\n            </optional_context>\n            </context>\n            \n            <examples>\n            <example1>\n            ")
  ++ dictGetD d ("11.Social Post Sample 1") ("")
  ++ ("\n            </example1>\n            <example2>\n            ")
  ++ dictGetD d ("11.Social Post Sample 2") ("")
  ++ ("\n            </example2>\n            <example3>\n            ")
  ++ dictGetD d ("11.Social Post Sample 3") ("")
  ++ ("\n            </example3>\n            </examples>\n    ")

/-- The `user_content` f-string of `PostGenerator`
(src/app.py lines 216-225). -/
def postUserContent (d : Dict) : String :=
  ("\n        Please write a social media post using your system instructions and given the AI transcript and topic below:\n\n        <ai_transcript>\n        AI Transcript: ")
  ++ dictGetD d ("2.AI Transcript Rough") ("")
  ++ ("\n        </ai_transcript>\n        <topic>\n        Topic Name: ")
  ++ dictGetD d ("12.Topic Name") ("")
  ++ ("\n        </topic>\n    ")

/-- The `system_content` f-string of `BlogPostGenerator`
(src/app.py lines 249-294). -/
def blogSystemContent (d : Dict) : String :=
  ("\n        You are an expert content strategist and SEO specialist who helps convert spoken-word transcripts into \n        professional, optimized blog posts. Your goal is to create long-form content that ranks well in search engines\n        while maintaining natural readability and thought leadership.\n\n        <Context>\n            <company_name>\n            Company Name: ")
  ++ dictGetD d ("6.Name") ("")
  ++ ("\n            </company_name>\n\n            <company_description>\n            Company Description: ")
  ++ dictGetD d ("6.Company Description") ("")
  ++ ("\n            </company_description>\n\n            <creator_name>\n            Creator Name: ")
  ++ dictGetD d ("11.Full Name") ("")
  ++ ("\n            </creator_name>\n\n            <creator_bio>\n            Creator Bio: ")
  ++ dictGetD d ("11.Bio") ("")
  ++ ("\n            </creator_bio>\n\n            <style_guide>\n            Long Form Style Guide: ")
  ++ dictGetD d ("7.Long Form Writing Style Guide") ("")
  ++ ("\n            </style_guide>\n\n            <optional_context>\n            Brand Values: ")
  ++ dictGetD d ("7.Brand Values") ("")
  ++ ("\n            Tone Guidelines: ")
  ++ dictGetD d ("7.Tone of Voice Principles") ("")
  ++ ("\n            Audience: ")
  ++ dictGetD d ("14.array") ("")
  ++ ("\n            Solutions: ")
  ++ dictGetD d ("13.array") ("")
  ++ ("\n            </optional_context>\n        </context>\n\n        <examples>\n        <example1>\n        ")
  ++ dictGetD d ("11.Long Form Text Sample 1") ("")
  ++ ("\n        </example1>\n        <example2>\n        ")
  ++ dictGetD d ("11.Long Form Text Sample 2") ("")
  ++ ("\n        </example2>\n        <example3>\n        ")
  ++ dictGetD d ("11.Long Form Text Sample 3") ("")
  ++ ("\n        </example3>\n        </examples>\n    ")

/-- The `user_content` f-string of `BlogPostGenerator`
(src/app.py lines 296-315). -/
def blogUserContent (d : Dict) : String :=
  ("\n        Create an SEO-optimized blog post from this transcript and topic:\n\n        <ai_transcript>\n        ")
  ++ dictGetD d ("2.AI Transcript Rough") ("")
  ++ ("\n        </ai_transcript>\n\n        <topic>\n        ")
  ++ dictGetD d ("12.Topic Name") ("")
  ++ ("\n        </topic>\n\n        Follow these structural requirements:\n        - Start with SEO frontmatter section\n        - Use proper heading hierarchy (H1 > H2 > H3)\n        - Include at least one bulleted list\n        - Keep paragraphs under 5 lines\n        - Use transitional phrases between sections\n        - Include natural keyword placement\n        - Add 3-5 relevant hashtags at end\n    ")

/-- The `messages` list built by `PostGenerator` (src/app.py lines 227-230). -/
def postMessages (request_data : Dict) : List Message :=
  let sanitized_data := sanitizePost request_data
  [⟨"system", postSystemContent sanitized_data⟩,
   ⟨"user", postUserContent sanitized_data⟩]

/-- The `messages` list built by `BlogPostGenerator`
(src/app.py lines 317-320). -/
def blogMessages (request_data : Dict) : List Message :=
  let sanitized_data := sanitizeBlog request_data
  [⟨"system", blogSystemContent sanitized_data⟩,
   ⟨"user", blogUserContent sanitized_data⟩]

/-! ## Content request pipelines -/

/-- The response dictionary returned by `PostGenerator`
(src/app.py lines 236-240). -/
structure PostResponse where
  title : String
  body : String
  hashtags : List String
deriving DecidableEq

/-- The response dictionary returned by `BlogPostGenerator`
(src/app.py lines 325-329). -/
structure BlogResponse where
  title : String
  contentBody : String
  hashtags : List String
deriving DecidableEq

/-- `PostGenerator` (src/app.py lines 151-240): sanitize, build the
messages, invoke the Completion Client with the `SocialMediaPost` schema,
and rename the fields of the validated instance into the response shape.
The remote model is abstracted as `provide`; Completion Client failures
propagate unchanged. -/
def PostGenerator (provide : List Message → Nat → SocialMediaPost)
    (max_retries : Nat) (request_data : Dict) :
    Except CompletionError PostResponse :=
  match create_completion validSocialMediaPost provide
      (postMessages request_data) max_retries with
  | .ok completion => .ok ⟨completion.title, completion.body, completion.hashtags⟩
  | .error e => .error e

/-- `BlogPostGenerator` (src/app.py lines 242-329). -/
def BlogPostGenerator (provide : List Message → Nat → BlogPost)
    (max_retries : Nat) (request_data : Dict) :
    Except CompletionError BlogResponse :=
  match create_completion validBlogPost provide
      (blogMessages request_data) max_retries with
  | .ok completion => .ok ⟨completion.title, completion.contentBody, completion.hashtags⟩
  | .error e => .error e

/-! ## HTTP boundary (src/app.py lines 332-362) -/

/-- A JSON response body at the boundary. -/
inductive ResponseBody where
  | errorObj (message : String)
  | postObj (r : PostResponse)
  | blogObj (r : BlogResponse)
deriving DecidableEq

/-- The `required_fields` list of `generate_blog` (src/app.py line 336). -/
def required_fields : List String := ["2.AI Transcript Rough", "12.Topic Name"]

/-- The `/generate_blog` handler (src/app.py lines 332-345): return 400 for
the first required field missing from the body, otherwise dispatch to the
blog pipeline; any exception raised by the pipeline (represented by its
message string) is mapped to a 500 with the fixed body
`{"error": "Internal server error"}`. -/
def generate_blog_route (gen : Dict → Except String BlogResponse)
    (body : Dict) : Nat × ResponseBody :=
  match required_fields.find? (fun f => !(hasKey body f)) with
  | some f => (400, .errorObj (("Missing required field: ") ++ f))
  | none =>
    match gen body with
    | .ok r => (200, .blogObj r)
    | .error _ => (500, .errorObj ("Internal server error"))

/-- The `/generate_post` handler (src/app.py lines 347-362): no input
validation; any exception is mapped to a 500 whose body is
`{"error": str(e)}` — the raw exception message. -/
def generate_post_route (gen : Dict → Except String PostResponse)
    (body : Dict) : Nat × ResponseBody :=
  match gen body with
  | .ok r => (200, .postObj r)
  | .error e => (500, .errorObj e)

/-! ## Dictionary lemmas -/

theorem dictGet_map_update_ne (k' v k : String) (h : (k' == k) = false) :
    ∀ l : Dict,
      dictGet (l.map (fun kv => if kv.1 == k' then (k', v) else kv)) k = dictGet l k := by
  intro l
  induction l with
  | nil => rfl
  | cons kv rest ih =>
    cases hkv : kv.1 == k' with
    | true =>
      have h1 : kv.1 = k' := eq_of_beq hkv
      simp [dictGet, hkv, h1, h]
      simpa using ih
    | false =>
      have ih' := ih
      simp only [beq_iff_eq] at ih'
      simp [dictGet, hkv, ih']

theorem dictGet_map_update_self (k' v : String) :
    ∀ l : Dict, l.any (fun kv => kv.1 == k') = true →
      dictGet (l.map (fun kv => if kv.1 == k' then (k', v) else kv)) k' = some v := by
  intro l
  induction l with
  | nil => intro h; simp at h
  | cons kv rest ih =>
    intro h
    cases hkv : kv.1 == k' with
    | true => simp [dictGet, hkv]
    | false =>
      have hrest : rest.any (fun kv => kv.1 == k') = true := by
        simpa [hkv] using h
      have ih' := ih hrest
      simp only [beq_iff_eq] at ih'
      simp [dictGet, hkv, ih']

theorem dictGet_append (l l2 : Dict) (k : String) :
    dictGet (l ++ l2) k =
      match dictGet l k with
      | some w => some w
      | none => dictGet l2 k := by
  induction l with
  | nil => rfl
  | cons kv rest ih =>
    cases hkv : kv.1 == k with
    | true => simp [dictGet, hkv]
    | false => simp [dictGet, hkv, ih]

theorem dictGet_none_of_any_false (k' : String) :
    ∀ l : Dict, l.any (fun kv => kv.1 == k') = false → dictGet l k' = none := by
  intro l
  induction l with
  | nil => intro _; rfl
  | cons kv rest ih =>
    intro h
    rw [List.any_cons, Bool.or_eq_false_iff] at h
    simp [dictGet, h.1, ih h.2]

theorem dictGet_dictInsert (l : Dict) (k' v k : String) :
    dictGet (dictInsert l k' v) k = if k' == k then some v else dictGet l k := by
  unfold dictInsert
  cases hany : (l.any fun kv => kv.1 == k') with
  | true =>
    rw [if_pos rfl]
    cases hk : k' == k with
    | true =>
      have hkk : k' = k := eq_of_beq hk
      subst hkk
      rw [dictGet_map_update_self k' v l hany, if_pos rfl]
    | false =>
      rw [dictGet_map_update_ne k' v k hk l, if_neg (by simp [hk])]
  | false =>
    rw [if_neg (by simp), dictGet_append]
    cases hk : k' == k with
    | true =>
      have hkk : k' = k := eq_of_beq hk
      subst hkk
      rw [dictGet_none_of_any_false k' l hany]
      simp [dictGet]
    | false =>
      cases hd : dictGet l k with
      | none => simp [dictGet, hk, hd]
      | some w => simp [hd, hk]

theorem sanitizeWith_lookup (strip : String → String) :
    ∀ (data acc : Dict) (k : String),
      dictGet (data.foldl (fun a kv => dictInsert a (strip kv.1) kv.2) acc) k
        = data.foldl (fun o kv => if strip kv.1 == k then some kv.2 else o) (dictGet acc k) := by
  intro data
  induction data with
  | nil => intro acc k; rfl
  | cons a rest ih =>
    intro acc k
    simp only [List.foldl_cons]
    rw [ih, dictGet_dictInsert]

theorem mem_dictInsert (d : Dict) (k v : String) (kv : String × String)
    (h : kv ∈ dictInsert d k v) : kv ∈ d ∨ kv = (k, v) := by
  unfold dictInsert at h
  by_cases hany : (d.any fun x => x.1 == k) = true
  · rw [if_pos hany] at h
    obtain ⟨x, hx, hfx⟩ := List.mem_map.mp h
    by_cases hxk : (x.1 == k) = true
    · right
      rw [if_pos hxk] at hfx
      exact hfx.symm
    · left
      rw [if_neg (by simpa using hxk)] at hfx
      rw [← hfx]
      exact hx
  · rw [if_neg hany] at h
    rcases List.mem_append.mp h with h1 | h1
    · left; exact h1
    · right
      simpa using h1

theorem sanitizeWith_mem (strip : String → String) :
    ∀ (data acc : Dict) (kv : String × String),
      kv ∈ data.foldl (fun a x => dictInsert a (strip x.1) x.2) acc →
      kv ∈ acc ∨ ∃ k0, (k0, kv.2) ∈ data ∧ strip k0 = kv.1 := by
  intro data
  induction data with
  | nil =>
    intro acc kv h
    left
    exact h
  | cons a rest ih =>
    intro acc kv h
    simp only [List.foldl_cons] at h
    rcases ih (dictInsert acc (strip a.1) a.2) kv h with hacc | ⟨k0, hk0, hs⟩
    · rcases mem_dictInsert _ _ _ _ hacc with h1 | h1
      · left; exact h1
      · right
        refine ⟨a.1, ?_, ?_⟩
        · rw [h1]
          exact List.mem_cons_self _ _
        · rw [h1]
    · right
      exact ⟨k0, List.mem_cons_of_mem _ hk0, hs⟩

/-! ## Character-stripping lemmas -/

theorem pyStripChar_mk (c : Char) (l : List Char) :
    pyStripChar c (String.mk l) = String.mk (l.filter (fun a => a != c)) := rfl

theorem not_mem_data_pyStripChar (c : Char) (s : String) :
    c ∉ (pyStripChar c s).data := by
  intro h
  have := (List.mem_filter.mp h).2
  simp at this

theorem mem_data_pyStripChar_of_mem (c a : Char) (s : String)
    (h : a ∈ (pyStripChar c s).data) : a ∈ s.data :=
  (List.mem_filter.mp h).1

theorem pyStripChar_of_not_mem (c : Char) (s : String) (h : c ∉ s.data) :
    pyStripChar c s = s := by
  cases s with
  | mk l =>
    rw [pyStripChar_mk]
    congr 1
    apply List.filter_eq_self.mpr
    intro a ha
    simp only [bne_iff_ne, ne_eq]
    intro hac
    exact h (hac ▸ ha)

theorem stripKeyPost_of_not_mem (k : String)
    (h27 : ('\x27') ∉ k.data) (h22 : ('\x22') ∉ k.data) :
    stripKeyPost k = k := by
  unfold stripKeyPost
  rw [pyStripChar_of_not_mem ('\x27') k h27, pyStripChar_of_not_mem ('\x22') k h22]

theorem stripKeyBlog_of_not_mem (k : String)
    (h27 : ('\x27') ∉ k.data) (h22 : ('\x22') ∉ k.data) (h60 : ('\x60') ∉ k.data) :
    stripKeyBlog k = k := by
  unfold stripKeyBlog
  rw [pyStripChar_of_not_mem ('\x27') k h27, pyStripChar_of_not_mem ('\x22') k h22,
    pyStripChar_of_not_mem ('\x60') k h60]

theorem stripKeyPost_no_quote (s : String) :
    ('\x27') ∉ (stripKeyPost s).data ∧ ('\x22') ∉ (stripKeyPost s).data := by
  constructor
  · intro h
    exact not_mem_data_pyStripChar ('\x27') s (mem_data_pyStripChar_of_mem _ _ _ h)
  · exact not_mem_data_pyStripChar ('\x22') _

theorem stripKeyBlog_no_quote (s : String) :
    ('\x27') ∉ (stripKeyBlog s).data ∧ ('\x22') ∉ (stripKeyBlog s).data ∧
      ('\x60') ∉ (stripKeyBlog s).data := by
  refine ⟨?_, ?_, ?_⟩
  · intro h
    exact not_mem_data_pyStripChar ('\x27') s
      (mem_data_pyStripChar_of_mem _ _ _ (mem_data_pyStripChar_of_mem _ _ _ h))
  · intro h
    exact not_mem_data_pyStripChar ('\x22') _ (mem_data_pyStripChar_of_mem _ _ _ h)
  · exact not_mem_data_pyStripChar ('\x60') _

theorem stripKeyPost_idem_aux (s : String) :
    stripKeyPost (stripKeyPost s) = stripKeyPost s := by
  have h := stripKeyPost_no_quote s
  calc stripKeyPost (stripKeyPost s)
      = pyStripChar ('\x22') (pyStripChar ('\x27') (stripKeyPost s)) := rfl
    _ = pyStripChar ('\x22') (stripKeyPost s) := by
        rw [pyStripChar_of_not_mem ('\x27') _ h.1]
    _ = stripKeyPost s := pyStripChar_of_not_mem ('\x22') _ h.2

theorem stripKeyBlog_idem_aux (s : String) :
    stripKeyBlog (stripKeyBlog s) = stripKeyBlog s := by
  have h := stripKeyBlog_no_quote s
  calc stripKeyBlog (stripKeyBlog s)
      = pyStripChar ('\x60') (pyStripChar ('\x22') (pyStripChar ('\x27') (stripKeyBlog s))) := rfl
    _ = pyStripChar ('\x60') (pyStripChar ('\x22') (stripKeyBlog s)) := by
        rw [pyStripChar_of_not_mem ('\x27') _ h.1]
    _ = pyStripChar ('\x60') (stripKeyBlog s) := by
        rw [pyStripChar_of_not_mem ('\x22') _ h.2.1]
    _ = stripKeyBlog s := pyStripChar_of_not_mem ('\x60') _ h.2.2

/-! ## Completion Client lemmas -/

theorem attemptCompletion_ok_valid {α : Type} (validate : α → Bool) (p : Nat → α) :
    ∀ (fuel attempt : Nat) (c : α),
      attemptCompletion validate p attempt fuel = .ok c → validate c = true := by
  intro fuel
  induction fuel with
  | zero =>
    intro attempt c h
    simp [attemptCompletion] at h
  | succ m ih =>
    intro attempt c h
    rw [attemptCompletion] at h
    by_cases hv : validate (p attempt) = true
    · rw [if_pos hv] at h
      cases h
      exact hv
    · rw [if_neg hv] at h
      exact ih (attempt + 1) c h

theorem attemptCompletion_error_exhaustion {α : Type} (validate : α → Bool) (p : Nat → α) :
    ∀ (fuel attempt : Nat) (e : CompletionError),
      attemptCompletion validate p attempt fuel = .error e →
        e = CompletionError.generationFailure := by
  intro fuel
  induction fuel with
  | zero =>
    intro attempt e h
    rw [attemptCompletion] at h
    cases h
    rfl
  | succ m ih =>
    intro attempt e h
    rw [attemptCompletion] at h
    by_cases hv : validate (p attempt) = true
    · rw [if_pos hv] at h
      cases h
    · rw [if_neg hv] at h
      exact ih (attempt + 1) e h

theorem attemptCompletion_stub {α : Type} (validate : α → Bool) (bad good : α)
    (n : Nat) (hbad : validate bad = false) (hgood : validate good = true) :
    ∀ (fuel attempt : Nat), attempt ≤ n →
      attemptCompletion validate (fun i => if i < n then bad else good) attempt fuel
        = if n < attempt + fuel then .ok good else .error .generationFailure := by
  intro fuel
  induction fuel with
  | zero =>
    intro attempt h
    rw [if_neg (by omega), attemptCompletion]
  | succ m ih =>
    intro attempt h
    rw [attemptCompletion]
    by_cases hlt : attempt < n
    · simp only [if_pos hlt, hbad, Bool.false_eq_true, if_neg, ite_false]
      rw [ih (attempt + 1) (by omega)]
      exact if_congr (by omega) rfl rfl
    · have ha : attempt = n := by omega
      simp only [if_neg hlt, hgood, if_pos, ite_true]
      rw [if_pos (by omega)]

theorem sanitizeWith_lastValue (strip : String → String) (data : Dict) (k : String) :
    dictGet (sanitizeWith strip data) k = lastValueFor strip data k := by
  unfold sanitizeWith lastValueFor
  rw [sanitizeWith_lookup]
  rfl

/-! ## Claim theorems -/

/-- Claim C8: the sanitization step is idempotent — for every input string,
applying the quote/backtick-stripping transformation twice yields the same
result as applying it once, both in the `PostGenerator` variant
(`stripKeyPost`, quotes only) and in the `BlogPostGenerator` variant
(`stripKeyBlog`, quotes and backtick). -/
theorem sanitization_idempotent (s : String) :
    stripKeyPost (stripKeyPost s) = stripKeyPost s ∧
    stripKeyBlog (stripKeyBlog s) = stripKeyBlog s :=
  ⟨stripKeyPost_idem_aux s, stripKeyBlog_idem_aux s⟩

/-- Claim C10: key sanitization can merge entries.  The value looked up under
a sanitized key is the value of the last entry (in iteration order) whose
stripped key matches (`lastValueFor`); in particular for a mapping of two
distinct keys that strip to the same key, the sanitized mapping is a single
entry holding the later value, the earlier value being silently dropped; and
keys containing none of the stripped characters are preserved unchanged. -/
theorem sanitize_merges_colliding_keys (data : Dict) (k k1 k2 v1 v2 : String) :
    (dictGet (sanitizePost data) k = lastValueFor stripKeyPost data k)
  ∧ (dictGet (sanitizeBlog data) k = lastValueFor stripKeyBlog data k)
  ∧ (k1 ≠ k2 → stripKeyPost k1 = stripKeyPost k2 →
      sanitizePost [(k1, v1), (k2, v2)] = [(stripKeyPost k2, v2)])
  ∧ (k1 ≠ k2 → stripKeyBlog k1 = stripKeyBlog k2 →
      sanitizeBlog [(k1, v1), (k2, v2)] = [(stripKeyBlog k2, v2)])
  ∧ (('\x27') ∉ k.data → ('\x22') ∉ k.data → stripKeyPost k = k)
  ∧ (('\x27') ∉ k.data → ('\x22') ∉ k.data → ('\x60') ∉ k.data → stripKeyBlog k = k) := by
  refine ⟨sanitizeWith_lastValue stripKeyPost data k,
    sanitizeWith_lastValue stripKeyBlog data k,
    fun hne he => ?_, fun hne he => ?_,
    stripKeyPost_of_not_mem k, stripKeyBlog_of_not_mem k⟩
  · simp [sanitizePost, sanitizeWith, dictInsert, he]
  · simp [sanitizeBlog, sanitizeWith, dictInsert, he]

/-- Claim C10 witness: `"a'"` and `"a"` are distinct keys that collide after
stripping; the sanitized mapping keeps only the later value `"v2"`, and a
quote-free key such as `"ab"` is preserved unchanged. -/
theorem sanitize_merges_colliding_keys_witness :
    sanitizePost [("a\x27", "v1"), ("a", "v2")] = [("a", "v2")]
  ∧ stripKeyPost ("ab") = ("ab") := by
  have h := sanitize_merges_colliding_keys [] ("ab") ("a\x27") ("a") ("v1") ("v2")
  exact ⟨(h.2.2.1 (by decide) (by decide)).trans (by decide),
    h.2.2.2.2.1 (by decide) (by decide)⟩

/-- Claim C2 counterexample: the pipelines do NOT strip quote or backtick
characters from the values — at input `{"k": "'"}` both sanitizers return
the value `"'"` unchanged, although the stripping transformation would have
erased the quote (it maps `"'"` to `""`). -/
theorem sanitize_leaves_values_unstripped :
    dictGet (sanitizePost [("k", "\x27")]) ("k") = some ("\x27")
  ∧ dictGet (sanitizeBlog [("k", "\x27")]) ("k") = some ("\x27")
  ∧ stripKeyPost ("\x27") = ("")
  ∧ stripKeyBlog ("\x27") = ("") := by decide

/-- Claim C2 amended: in both pipelines the sanitization acts on the KEYS,
not the values, of the request mapping: every entry of the sanitized mapping
has a key free of quote characters (and, on the blog path, of the backtick)
obtained by stripping some original key, while its value is an original
value passed through unchanged. -/
theorem sanitize_strips_keys_not_values (data : Dict) (kv : String × String) :
    (kv ∈ sanitizePost data →
      (('\x27') ∉ kv.1.data ∧ ('\x22') ∉ kv.1.data)
      ∧ ∃ k0, (k0, kv.2) ∈ data ∧ stripKeyPost k0 = kv.1)
  ∧ (kv ∈ sanitizeBlog data →
      (('\x27') ∉ kv.1.data ∧ ('\x22') ∉ kv.1.data ∧ ('\x60') ∉ kv.1.data)
      ∧ ∃ k0, (k0, kv.2) ∈ data ∧ stripKeyBlog k0 = kv.1) := by
  constructor
  · intro h
    unfold sanitizePost sanitizeWith at h
    rcases sanitizeWith_mem stripKeyPost data [] kv h with hacc | ⟨k0, hk0, hs⟩
    · simp at hacc
    · refine ⟨?_, ⟨k0, hk0, hs⟩⟩
      rw [← hs]
      exact stripKeyPost_no_quote k0
  · intro h
    unfold sanitizeBlog sanitizeWith at h
    rcases sanitizeWith_mem stripKeyBlog data [] kv h with hacc | ⟨k0, hk0, hs⟩
    · simp at hacc
    · refine ⟨?_, ⟨k0, hk0, hs⟩⟩
      rw [← hs]
      exact stripKeyBlog_no_quote k0

/-- Claim C2 amended witness: the entry `("a", "v")` of the sanitized
mapping of `{"a'": "v"}` has a quote-free key. -/
theorem sanitize_strips_keys_not_values_witness :
    ('\x27') ∉ ("a" : String).data ∧ ('\x22') ∉ ("a" : String).data
  ∧ ("a", "v") ∈ sanitizePost [("a\x27", "v")] := by
  have h := sanitize_strips_keys_not_values [("a\x27", "v")] (("a", "v"))
  have hm : ("a", "v") ∈ sanitizePost [("a\x27", "v")] := by decide
  exact ⟨(h.1 hm).1.1, (h.1 hm).1.2, hm⟩

/-- Claim C3: for every input mapping, both pipelines build exactly the
system and user messages (so message construction is total — no key-absence
error), and a key absent from the sanitized mapping contributes the default
empty string at every `sanitized_data.get(key, "")` interpolation point. -/
theorem generators_tolerate_missing_keys (data : Dict) (k : String) :
    ((postMessages data).map Message.role = ["system", "user"])
  ∧ ((blogMessages data).map Message.role = ["system", "user"])
  ∧ (hasKey (sanitizePost data) k = false → dictGetD (sanitizePost data) k ("") = "")
  ∧ (hasKey (sanitizeBlog data) k = false → dictGetD (sanitizeBlog data) k ("") = "") := by
  refine ⟨rfl, rfl, fun h => ?_, fun h => ?_⟩
  · unfold hasKey at h
    unfold dictGetD
    rw [dictGet_none_of_any_false k _ h]
    rfl
  · unfold hasKey at h
    unfold dictGetD
    rw [dictGet_none_of_any_false k _ h]
    rfl

/-- Claim C3 witness: a mapping holding none of the context keys still
yields the two messages, and the absent key `6.Name` contributes `""`. -/
theorem generators_tolerate_missing_keys_witness :
    ((postMessages [("x", "y")]).map Message.role = ["system", "user"])
  ∧ ((blogMessages [("x", "y")]).map Message.role = ["system", "user"])
  ∧ (dictGetD (sanitizePost [("x", "y")]) ("6.Name") ("") = "")
  ∧ (dictGetD (sanitizeBlog [("x", "y")]) ("6.Name") ("") = "") := by
  have h := generators_tolerate_missing_keys [("x", "y")] ("6.Name")
  exact ⟨h.1, h.2.1, h.2.2.1 (by decide), h.2.2.2 (by decide)⟩

/-- Claim C1: for every field mapping, `PostGenerator` (content type
`social`) either returns a response every field of which satisfies its
declared constraint — `hashtags` has exactly 3 entries, `title` is at most
70 characters, `body` length lies in [500, 2100] — or fails with the
retry-exhaustion error; it never returns a partially-valid object. -/
theorem social_generation_all_or_nothing
    (provide : List Message → Nat → SocialMediaPost) (max_retries : Nat)
    (request_data : Dict) :
    match PostGenerator provide max_retries request_data with
    | .error e => e = CompletionError.generationFailure
    | .ok r => r.title.length ≤ 70 ∧ 500 ≤ r.body.length ∧ r.body.length ≤ 2100
        ∧ r.hashtags.length = 3 := by
  unfold PostGenerator
  cases h : create_completion validSocialMediaPost provide
      (postMessages request_data) max_retries with
  | error e =>
    exact attemptCompletion_error_exhaustion validSocialMediaPost
      (provide (postMessages request_data)) max_retries 0 e h
  | ok c =>
    have hv := attemptCompletion_ok_valid validSocialMediaPost
      (provide (postMessages request_data)) max_retries 0 c h
    simp only [validSocialMediaPost, Bool.and_eq_true, decide_eq_true_eq] at hv
    obtain ⟨⟨⟨⟨h1, h2⟩, h3⟩, h4⟩, h5⟩ := hv
    exact ⟨h1, h2, h3, Nat.le_antisymm h5 h4⟩

/-- Claim C7: against a stub provider producing schema-invalid output on its
first `n` attempts and schema-valid output thereafter, the Completion
Client succeeds (returning the valid instance) iff `n < max_retries`, and
fails with the generation failure iff `n ≥ max_retries`. -/
theorem completion_succeeds_iff_retries_not_exhausted {α : Type}
    (validate : α → Bool) (bad good : α) (messages : List Message)
    (n max_retries : Nat)
    (hbad : validate bad = false) (hgood : validate good = true) :
    (create_completion validate (stubProvider bad good n) messages max_retries
        = .ok good ↔ n < max_retries)
  ∧ (create_completion validate (stubProvider bad good n) messages max_retries
        = .error .generationFailure ↔ max_retries ≤ n) := by
  have hmain : create_completion validate (stubProvider bad good n) messages max_retries
      = if n < 0 + max_retries then .ok good else .error .generationFailure :=
    attemptCompletion_stub validate bad good n hbad hgood max_retries 0 (Nat.zero_le n)
  rw [Nat.zero_add] at hmain
  rcases Nat.lt_or_ge n max_retries with hlt | hge
  · rw [hmain, if_pos hlt]
    refine ⟨⟨fun _ => hlt, fun _ => rfl⟩, ?_, ?_⟩
    · intro hcontra
      exact Except.noConfusion hcontra
    · intro hle
      exact absurd hle (by omega)
  · rw [hmain, if_neg (by omega)]
    refine ⟨⟨?_, ?_⟩, fun _ => hge, fun _ => rfl⟩
    · intro hcontra
      exact Except.noConfusion hcontra
    · intro hlt2
      exact absurd hlt2 (by omega)

/-- Claim C7 witness: with one invalid attempt and a budget of five
attempts, the client succeeds, and the failure equivalence holds as well. -/
theorem completion_succeeds_iff_retries_not_exhausted_witness :
    (create_completion (fun b : Bool => b) (stubProvider false true 1) [] 5
        = .ok true ↔ 1 < 5)
  ∧ (create_completion (fun b : Bool => b) (stubProvider false true 1) [] 5
        = .error .generationFailure ↔ 5 ≤ 1) :=
  completion_succeeds_iff_retries_not_exhausted (fun b => b) false true [] 1 5 rfl rfl

/-- Claim C4: `/generate_blog` returns 400 naming the first missing required
field — `2.AI Transcript Rough` first, then `12.Topic Name` — without
invoking the generator (the response is independent of the generator); when
both keys are present, validation passes and the result is determined by
invoking the generator on the body. -/
theorem blog_route_validates_required_fields
    (gen gen2 : Dict → Except String BlogResponse) (body : Dict) :
    (hasKey body ("2.AI Transcript Rough") = false →
        generate_blog_route gen body
          = (400, .errorObj ("Missing required field: 2.AI Transcript Rough"))
      ∧ generate_blog_route gen body = generate_blog_route gen2 body)
  ∧ (hasKey body ("2.AI Transcript Rough") = true →
      hasKey body ("12.Topic Name") = false →
        generate_blog_route gen body
          = (400, .errorObj ("Missing required field: 12.Topic Name"))
      ∧ generate_blog_route gen body = generate_blog_route gen2 body)
  ∧ (hasKey body ("2.AI Transcript Rough") = true →
      hasKey body ("12.Topic Name") = true →
        generate_blog_route gen body
          = match gen body with
            | .ok r => (200, .blogObj r)
            | .error _ => (500, .errorObj ("Internal server error"))) := by
  refine ⟨fun h1 => ?_, fun h1 h2 => ?_, fun h1 h2 => ?_⟩
  · have hfind : required_fields.find? (fun f => !(hasKey body f))
        = some ("2.AI Transcript Rough") := by
      simp [required_fields, List.find?, h1]
    unfold generate_blog_route
    rw [hfind]
    refine ⟨?_, rfl⟩
    show (400, ResponseBody.errorObj (("Missing required field: ") ++ ("2.AI Transcript Rough")))
        = (400, ResponseBody.errorObj ("Missing required field: 2.AI Transcript Rough"))
    decide
  · have hfind : required_fields.find? (fun f => !(hasKey body f))
        = some ("12.Topic Name") := by
      simp [required_fields, List.find?, h1, h2]
    unfold generate_blog_route
    rw [hfind]
    refine ⟨?_, rfl⟩
    show (400, ResponseBody.errorObj (("Missing required field: ") ++ ("12.Topic Name")))
        = (400, ResponseBody.errorObj ("Missing required field: 12.Topic Name"))
    decide
  · have hfind : required_fields.find? (fun f => !(hasKey body f)) = none := by
      simp [required_fields, List.find?, h1, h2]
    unfold generate_blog_route
    rw [hfind]

/-- Claim C4 witness: the empty body is missing `2.AI Transcript Rough`, so
the route answers 400 with that field named. -/
theorem blog_route_validates_required_fields_witness :
    generate_blog_route (fun _ => Except.error ("x")) []
      = (400, ResponseBody.errorObj ("Missing required field: 2.AI Transcript Rough")) := by
  have h := blog_route_validates_required_fields (fun _ => Except.error ("x"))
      (fun _ => Except.error ("y")) []
  exact (h.1 (by decide)).1

/-- Claim C5: every generation parameter assembled by
`LLMFactory.create_completion` equals the caller-supplied keyword value when
one is provided and the configuration value otherwise, and `response_model`
and `messages` are passed through unchanged. -/
theorem create_completion_param_defaults {α β : Type} (settings : OpenAISettings)
    (kwargs : CompletionKwargs) (rm : α) (msgs : β) :
    (∀ m, kwargs.model = some m →
      (completion_params settings kwargs rm msgs).model = m)
  ∧ (kwargs.model = none →
      (completion_params settings kwargs rm msgs).model = settings.default_model)
  ∧ (∀ t, kwargs.temperature = some t →
      (completion_params settings kwargs rm msgs).temperature = t)
  ∧ (kwargs.temperature = none →
      (completion_params settings kwargs rm msgs).temperature = settings.temperature)
  ∧ (∀ r, kwargs.max_retries = some r →
      (completion_params settings kwargs rm msgs).max_retries = r)
  ∧ (kwargs.max_retries = none →
      (completion_params settings kwargs rm msgs).max_retries = settings.max_retries)
  ∧ (∀ t, kwargs.max_tokens = some t →
      (completion_params settings kwargs rm msgs).max_tokens = t)
  ∧ (kwargs.max_tokens = none →
      (completion_params settings kwargs rm msgs).max_tokens = settings.max_tokens)
  ∧ (completion_params settings kwargs rm msgs).response_model = rm
  ∧ (completion_params settings kwargs rm msgs).messages = msgs := by
  refine ⟨fun m h => ?_, fun h => ?_, fun t h => ?_, fun h => ?_, fun r h => ?_,
    fun h => ?_, fun t h => ?_, fun h => ?_, rfl, rfl⟩ <;>
    simp [completion_params, h]

/-- Claim C5 witness: with `model` and `max_retries` supplied and the other
keywords omitted, the assembled parameters take the caller's values for the
former and the configured defaults for the latter. -/
theorem create_completion_param_defaults_witness :
    (completion_params (default_openai_settings ("k"))
        ⟨some ("m"), none, some 2, none⟩ 0 ("msgs")).model = "m"
  ∧ (completion_params (default_openai_settings ("k"))
        ⟨some ("m"), none, some 2, none⟩ 0 ("msgs")).temperature = 0
  ∧ (completion_params (default_openai_settings ("k"))
        ⟨some ("m"), none, some 2, none⟩ 0 ("msgs")).max_retries = 2
  ∧ (completion_params (default_openai_settings ("k"))
        ⟨some ("m"), none, some 2, none⟩ 0 ("msgs")).max_tokens = none
  ∧ (completion_params (default_openai_settings ("k"))
        ⟨some ("m"), none, some 2, none⟩ 0 ("msgs")).response_model = 0
  ∧ (completion_params (default_openai_settings ("k"))
        ⟨some ("m"), none, some 2, none⟩ 0 ("msgs")).messages = "msgs" := by
  have h := create_completion_param_defaults (default_openai_settings ("k"))
      ⟨some ("m"), none, some 2, none⟩ 0 ("msgs")
  exact ⟨h.1 ("m") rfl, h.2.2.2.1 rfl, h.2.2.2.2.1 2 rfl,
    h.2.2.2.2.2.2.2.1 rfl, h.2.2.2.2.2.2.2.2.1, h.2.2.2.2.2.2.2.2.2⟩

/-- Claim C6 counterexample: for an uncaught failure with message `"boom"`,
the `/generate_post` boundary returns a 500 whose body carries the raw
exception message itself (`str(e)` at src/app.py line 362), not a generic
minimal message — internal error detail is leaked, contrary to the claim. -/
theorem post_route_leaks_exception_detail :
    generate_post_route (fun _ => Except.error ("boom")) []
      = (500, ResponseBody.errorObj ("boom")) := rfl

/-- Claim C6 amended: `/generate_blog` maps any uncaught failure to a 500
with the fixed generic body `Internal server error`, independent of the
exception; `/generate_post` maps it to a 500 whose body is the underlying
exception's message text. -/
theorem boundary_error_responses
    (gen : Dict → Except String BlogResponse)
    (gen2 : Dict → Except String PostResponse) (body : Dict) (e e2 : String) :
    (hasKey body ("2.AI Transcript Rough") = true →
      hasKey body ("12.Topic Name") = true → gen body = .error e →
        generate_blog_route gen body = (500, .errorObj ("Internal server error")))
  ∧ (gen2 body = .error e2 →
        generate_post_route gen2 body = (500, .errorObj e2)) := by
  constructor
  · intro h1 h2 he
    have hfind : required_fields.find? (fun f => !(hasKey body f)) = none := by
      simp [required_fields, List.find?, h1, h2]
    unfold generate_blog_route
    rw [hfind, he]
  · intro he
    unfold generate_post_route
    rw [he]

/-- Claim C6 amended witness: on a body carrying both required fields and a
pipeline failing with `"boom"`, the blog route answers the generic 500 and
the post route leaks the message. -/
theorem boundary_error_responses_witness :
    generate_blog_route (fun _ => Except.error ("boom"))
        [("2.AI Transcript Rough", "t"), ("12.Topic Name", "n")]
      = (500, ResponseBody.errorObj ("Internal server error"))
  ∧ generate_post_route (fun _ => Except.error ("boom"))
        [("2.AI Transcript Rough", "t"), ("12.Topic Name", "n")]
      = (500, ResponseBody.errorObj ("boom")) := by
  have h := boundary_error_responses (fun _ => Except.error ("boom"))
      (fun _ => Except.error ("boom"))
      [("2.AI Transcript Rough", "t"), ("12.Topic Name", "n")] ("boom") ("boom")
  exact ⟨h.1 (by decide) (by decide) rfl, h.2 rfl⟩

/-- Claim C9 counterexample: a social body of 500 letters with no
hook/paragraph/conclusion structure and a blog body of 2800 letters with no
frontmatter and no H2 sections both pass the schemas' machine-checked
validation — the structural markers are instruction text to the model, not
validation predicates on the produced output. -/
theorem countMarker_zero_of_head_notin (pat : List Char) (c : Char)
    (hpat : pat.head? = some c) :
    ∀ l : List Char, (∀ a ∈ l, a ≠ c) → countMarker pat l = 0 := by
  obtain ⟨tail, rfl⟩ : ∃ tail, pat = c :: tail := by
    cases pat with
    | nil => cases hpat
    | cons p ps =>
      cases hpat
      exact ⟨ps, rfl⟩
  intro l
  induction l with
  | nil => intro _; rfl
  | cons a rest ih =>
    intro h
    have ha : a ≠ c := h a (List.mem_cons_self _ _)
    have hca : (c == a) = false := beq_eq_false_iff_ne.mpr (fun hc => ha hc.symm)
    have hpre : (c :: tail).isPrefixOf (a :: rest) = false := by
      simp [List.isPrefixOf, hca]
    rw [countMarker, hpre]
    simpa using ih (fun x hx => h x (List.mem_cons_of_mem _ hx))

theorem structural_markers_not_validated :
    validSocialMediaPost ⟨"t", String.mk (List.replicate 500 ('a')), ["a", "b", "c"]⟩ = true
  ∧ specSocialStructureCheck (String.mk (List.replicate 500 ('a'))) = false
  ∧ validBlogPost ⟨"t", String.mk (List.replicate 2800 ('a')), ["a", "b", "c"]⟩ = true
  ∧ specBlogStructureCheck (String.mk (List.replicate 2800 ('a'))) = false := by
  have hmem : ∀ (n : Nat) (c : Char), c ≠ 'a' → ∀ a ∈ List.replicate n ('a'), a ≠ c := by
    intro n c hc a ha
    rw [List.eq_of_mem_replicate ha]
    exact fun h => hc h.symm
  have hlen500 : (String.mk (List.replicate 500 ('a'))).length = 500 := by
    show (List.replicate 500 ('a')).length = 500
    rw [List.length_replicate]
  have hlen2800 : (String.mk (List.replicate 2800 ('a'))).length = 2800 := by
    show (List.replicate 2800 ('a')).length = 2800
    rw [List.length_replicate]
  refine ⟨?_, ?_, ?_, ?_⟩
  · show (decide (("t").length ≤ 70) &&
        decide (500 ≤ (String.mk (List.replicate 500 ('a'))).length) &&
        decide ((String.mk (List.replicate 500 ('a'))).length ≤ 2100) &&
        decide (3 ≤ (["a", "b", "c"] : List String).length) &&
        decide ((["a", "b", "c"] : List String).length ≤ 3)) = true
    rw [hlen500]
    decide
  · have hc := countMarker_zero_of_head_notin (("\n\n").data) ('\x0a') (by decide)
      (List.replicate 500 ('a')) (hmem 500 ('\x0a') (by decide))
    show decide (2 ≤ countMarker (("\n\n").data) (List.replicate 500 ('a'))) = false
    rw [hc]
    decide
  · show (decide (("t").length ≤ 120) &&
        decide (2800 ≤ (String.mk (List.replicate 2800 ('a'))).length) &&
        decide ((String.mk (List.replicate 2800 ('a'))).length ≤ 4000) &&
        decide (3 ≤ (["a", "b", "c"] : List String).length) &&
        decide ((["a", "b", "c"] : List String).length ≤ 5)) = true
    rw [hlen2800]
    decide
  · have hc := countMarker_zero_of_head_notin (("Focus Keyword:").data) ('F') (by decide)
      (List.replicate 2800 ('a')) (hmem 2800 ('F') (by decide))
    show (decide (1 ≤ countMarker (("Focus Keyword:").data) (List.replicate 2800 ('a'))) &&
        decide (1 ≤ countMarker (("Meta Title:").data) (List.replicate 2800 ('a'))) &&
        decide (1 ≤ countMarker (("Meta Description:").data) (List.replicate 2800 ('a'))) &&
        decide (1 ≤ countMarker (("URL:").data) (List.replicate 2800 ('a'))) &&
        decide (3 ≤ countMarker (("\n## ").data) (List.replicate 2800 ('a')))) = false
    rw [hc]
    rw [show (decide (1 ≤ (0 : Nat))) = false from rfl]
    rw [Bool.false_and, Bool.false_and, Bool.false_and, Bool.false_and]

/-- Claim C9 amended: the length bounds and item-count bounds are enforced
as machine-checkable validation predicates, but they are all that is
enforced: any output meeting the bounds passes validation, whether or not
it carries the structural markers, which exist only as natural-language
description text. -/
theorem schema_enforces_only_bounds (p : SocialMediaPost) (q : BlogPost) :
    (p.title.length ≤ 70 → 500 ≤ p.body.length → p.body.length ≤ 2100 →
      p.hashtags.length = 3 → validSocialMediaPost p = true)
  ∧ (q.title.length ≤ 120 → 2800 ≤ q.contentBody.length →
      q.contentBody.length ≤ 4000 → 3 ≤ q.hashtags.length →
      q.hashtags.length ≤ 5 → validBlogPost q = true) := by
  constructor
  · intro h1 h2 h3 h4
    simp [validSocialMediaPost, h1, h2, h3, h4]
  · intro h1 h2 h3 h4 h5
    simp [validBlogPost, h1, h2, h3, h4, h5]

/-- Claim C9 amended witness: concrete in-bounds instances pass
validation. -/
theorem schema_enforces_only_bounds_witness :
    validSocialMediaPost ⟨"t", String.mk (List.replicate 600 ('b')), ["x", "y", "z"]⟩ = true
  ∧ validBlogPost ⟨"t", String.mk (List.replicate 3000 ('b')), ["x", "y", "z"]⟩ = true := by
  have hlen600 : (String.mk (List.replicate 600 ('b'))).length = 600 := by
    show (List.replicate 600 ('b')).length = 600
    rw [List.length_replicate]
  have hlen3000 : (String.mk (List.replicate 3000 ('b'))).length = 3000 := by
    show (List.replicate 3000 ('b')).length = 3000
    rw [List.length_replicate]
  have h := schema_enforces_only_bounds
      ⟨"t", String.mk (List.replicate 600 ('b')), ["x", "y", "z"]⟩
      ⟨"t", String.mk (List.replicate 3000 ('b')), ["x", "y", "z"]⟩
  refine ⟨h.1 (by decide) ?_ ?_ (by decide), h.2 (by decide) ?_ ?_ (by decide) (by decide)⟩
  · show 500 ≤ (String.mk (List.replicate 600 ('b'))).length
    rw [hlen600]
    omega
  · show (String.mk (List.replicate 600 ('b'))).length ≤ 2100
    rw [hlen600]
    omega
  · show 2800 ≤ (String.mk (List.replicate 3000 ('b'))).length
    rw [hlen3000]
    omega
  · show (String.mk (List.replicate 3000 ('b'))).length ≤ 4000
    rw [hlen3000]
    omega
